import Mathlib

/-!
# Verification of the library lending ledger

Shallow embedding of the data-access layer of a personal library-lending
tracker (`Data/Write.py`, `Data/Read.py`, `Data/Home.py`).  The four SQL
tables become lists of records, table order being list order; each write
function becomes a state transformer on the whole database, each read
query a pure function.  Dates are modelled as integers (day ordinals):
the source compares dates with `<` and `=` only.  The nullable
`ReturnReminder` column is an `Option`.
-/

/-- A row of the `Books` table.  `isInStock` is the stored `IsInStock`
integer column (the source writes the literals `0` and `1` into it). -/
structure Book where
  isbn : String
  title : String
  author : String
  genre : String
  bookCondition : String
  shelfLocation : String
  shelfRow : Int
  isInStock : Int
deriving DecidableEq, Repr

/-- A row of the `Friends` table.  `maxLoans` is the stored `MaxLoans`
column, which the write layer mutates (decrement on borrow, increment
on return). -/
structure Friend where
  friendID : Int
  fname : String
  lname : String
  maxLoans : Int
deriving DecidableEq, Repr

/-- A row of the `Loans` table.  `returned` is the `Returned` column;
the insert in `create_loan_entry` does not set it, so it takes the
schema default `0`.  `returnReminder` is nullable. -/
structure Loan where
  loanID : Int
  borrowDate : Int
  dueDate : Int
  returnReminder : Option Int
  isbn : String
  friendID : Int
  returned : Int
deriving DecidableEq, Repr

/-- A row of the `Contacts` table (`type` and `contact` columns). -/
structure Contact where
  contactID : Int
  friendID : Int
  ctype : String
  contact : String
deriving DecidableEq, Repr

/-- The whole SQLite database.  `nextLoanID` models the autoincrement
counter behind `Loans.LoanID`. -/
structure DB where
  books : List Book
  friends : List Friend
  loans : List Loan
  contacts : List Contact
  nextLoanID : Int
deriving DecidableEq, Repr

/-- `Write.create_loan_entry borrow_date due_date return_reminder isbn friend_id`:
one transaction that

* `INSERT INTO Loans (BorrowDate, DueDate, ReturnReminder, ISBN, FriendID)`,
* `UPDATE Books SET IsInStock = 0 WHERE ISBN = :isbn`,
* `UPDATE Friends SET MaxLoans = (MaxLoans - 1) WHERE FriendID = :friend_id`.

The function performs no availability or capacity check of its own and
(connection failures apart) always reports success. -/
def create_loan_entry (borrow_date due_date : Int) (return_reminder : Option Int)
    (isbn : String) (friend_id : Int) (db : DB) : DB :=
  { db with
    loans := db.loans ++
      [{ loanID := db.nextLoanID, borrowDate := borrow_date, dueDate := due_date,
         returnReminder := return_reminder, isbn := isbn, friendID := friend_id,
         returned := 0 }],
    books := db.books.map fun b =>
      if b.isbn = isbn then { b with isInStock := 0 } else b,
    friends := db.friends.map fun f =>
      if f.friendID = friend_id then { f with maxLoans := f.maxLoans - 1 } else f,
    nextLoanID := db.nextLoanID + 1 }

/-- `Write.return_book isbn friend_id`: one transaction that

* `DELETE FROM Loans WHERE ISBN = :isbn AND FriendID = :friend_id`,
* `UPDATE Books SET IsInStock = 1 WHERE ISBN = :isbn`,
* `UPDATE Friends SET MaxLoans = (MaxLoans + 1) WHERE FriendID = :friend_id`.

The updates run whether or not the `DELETE` matched any row. -/
def return_book (isbn : String) (friend_id : Int) (db : DB) : DB :=
  { db with
    loans := db.loans.filter fun l => !(l.isbn == isbn && l.friendID == friend_id),
    books := db.books.map fun b =>
      if b.isbn = isbn then { b with isInStock := 1 } else b,
    friends := db.friends.map fun f =>
      if f.friendID = friend_id then { f with maxLoans := f.maxLoans + 1 } else f }

/-- `Write.delete_friend friend_id`: deletes the friend's `Contacts`,
`Loans` and `Friends` rows, in that order, and touches nothing else. -/
def delete_friend (friend_id : Int) (db : DB) : DB :=
  { db with
    contacts := db.contacts.filter fun c => !(c.friendID == friend_id),
    loans := db.loans.filter fun l => !(l.friendID == friend_id),
    friends := db.friends.filter fun f => !(f.friendID == friend_id) }

/-- `Write.clear_reminder loan_id`:
`UPDATE Loans SET ReturnReminder = NULL WHERE LoanID = :loan_id`. -/
def clear_reminder (loan_id : Int) (db : DB) : DB :=
  { db with
    loans := db.loans.map fun l =>
      if l.loanID = loan_id then { l with returnReminder := none } else l }

/-- A row of the result set of `Read.get_books` (`SELECT ISBN, Title`). -/
structure BookRow where
  isbn : String
  title : String
deriving DecidableEq, Repr

/-- `Read.get_books`: `SELECT ISBN, Title FROM Books WHERE IsInStock = 1
ORDER BY Title`. -/
def get_books (db : DB) : List BookRow :=
  (((db.books.filter fun b => b.isInStock == 1).mergeSort
      fun a b => a.title ≤ b.title).map fun b => ⟨b.isbn, b.title⟩)

/-- A row of the result set of `Read.get_loan_overdues`. -/
structure OverdueRow where
  loanID : Int
  dueDate : Int
  friendID : Int
  fname : String
  lname : String
  title : String
  isbn : String
deriving DecidableEq, Repr

/-- `Read.get_loan_overdues`: inner join of `Loans` with `Books` (on
`ISBN`) and `Friends` (on `FriendID`), `WHERE DueDate < date('now') AND
Returned = 0`, with no `ORDER BY`.  The `WHERE` clause mentions only
`Loans` columns, so it is applied at the loan level; `today` stands for
`date('now')`.  Inner-join row order is the nested-loop order: loans in
table order, then matching books, then matching friends. -/
def get_loan_overdues (today : Int) (db : DB) : List OverdueRow :=
  (db.loans.filter fun l => decide (l.dueDate < today) && l.returned == 0).flatMap fun l =>
    (db.books.filter fun b => l.isbn == b.isbn).flatMap fun b =>
      (db.friends.filter fun f => l.friendID == f.friendID).map fun f =>
        { loanID := l.loanID, dueDate := l.dueDate, friendID := f.friendID,
          fname := f.fname, lname := f.lname, title := b.title, isbn := l.isbn }

/-- A row of the result set of `Read.get_daily_reminders`. -/
structure ReminderRow where
  loanID : Int
  dueDate : Int
  friendID : Int
  fname : String
  lname : String
  title : String
  ctype : String
  contact : String
deriving DecidableEq, Repr

/-- The rows `Read.get_daily_reminders` produces for one `Loans` row:
the inner joins with `Friends` (on `FriendID`), `Books` (on `ISBN`) and
`Contacts` (on the loan's `FriendID`). -/
def reminder_rows (db : DB) (l : Loan) : List ReminderRow :=
  (db.friends.filter fun f => l.friendID == f.friendID).flatMap fun f =>
    (db.books.filter fun b => l.isbn == b.isbn).flatMap fun b =>
      (db.contacts.filter fun c => l.friendID == c.friendID).map fun c =>
        { loanID := l.loanID, dueDate := l.dueDate, friendID := f.friendID,
          fname := f.fname, lname := f.lname, title := b.title,
          ctype := c.ctype, contact := c.contact }

/-- `Read.get_daily_reminders`: inner join of `Loans` with `Friends`,
`Books` and `Contacts`, `WHERE date(Loans.ReturnReminder) = date('now')`.
In SQL a `NULL` reminder never satisfies the equality, so only loans
whose reminder is set to today pass; the `WHERE` clause mentions only
`Loans` columns and is applied at the loan level. -/
def get_daily_reminders (today : Int) (db : DB) : List ReminderRow :=
  (db.loans.filter fun l => l.returnReminder == some today).flatMap (reminder_rows db)

/-- `Read.get_friend_max_loans`: returns `None` for a falsy id
(`if not friend_id`, so id `0` included), otherwise the `MaxLoans` of
the first `Friends` row with that id (`LIMIT 1`), or `None` when no row
matches. -/
def get_friend_max_loans (friend_id : Int) (db : DB) : Option Int :=
  if friend_id = 0 then none
  else (db.friends.find? fun f => f.friendID == friend_id).map fun f => f.maxLoans

/-- `Read.can_borrow_more`: `False` when `get_friend_max_loans` gives
`None`; otherwise compares the number of rows of
`SELECT * FROM Loans WHERE FriendID = :friend_id AND Returned = 0`
(the cursor's row count) with that `MaxLoans` value. -/
def can_borrow_more (friend_id : Int) (db : DB) : Bool :=
  match get_friend_max_loans friend_id db with
  | none => false
  | some max_loans =>
    decide (((db.loans.filter fun l =>
      l.friendID == friend_id && l.returned == 0).length : Int) < max_loans)

/-- The stock/loan coupling invariant (spec §3, §8): a book's stored
`IsInStock` is `0` exactly when an open loan (`Returned = 0`) references
its ISBN. -/
def stockInv (db : DB) : Prop :=
  ∀ b ∈ db.books, (b.isInStock = 0 ↔ ∃ l ∈ db.loans, l.returned = 0 ∧ l.isbn = b.isbn)

/-- At most one open loan references any ISBN at any time (spec §3):
no two distinct `Loans` rows are both open with the same ISBN. -/
def atMostOneOpen (db : DB) : Prop :=
  db.loans.Pairwise fun l l' => l.returned = 0 → l'.returned = 0 → l.isbn ≠ l'.isbn

/-- The ledger invariant: stock/loan coupling plus uniqueness of the
open loan per ISBN. -/
def LedgerInv (db : DB) : Prop := stockInv db ∧ atMostOneOpen db

instance (db : DB) : Decidable (stockInv db) := by
  unfold stockInv; infer_instance

instance (db : DB) : Decidable (atMostOneOpen db) := by
  unfold atMostOneOpen; infer_instance

instance (db : DB) : Decidable (LedgerInv db) := by
  unfold LedgerInv; infer_instance

/-- One borrow or return operation as the application performs it: the
Home page offers for borrowing only books listed by `get_books` (hence
rows with `IsInStock = 1`), and for return only loans that exist (the
select box is built from the `Loans` table, whose rows are all open
because `create_loan_entry` inserts `Returned = 0` and `return_book`
deletes rows instead of flagging them). -/
inductive Step : DB → DB → Prop
  | borrow (bd dd : Int) (rr : Option Int) (isbn : String) (fid : Int) (db : DB)
      (hb : ∃ b ∈ db.books, b.isbn = isbn ∧ b.isInStock = 1) :
      Step db (create_loan_entry bd dd rr isbn fid db)
  | ret (isbn : String) (fid : Int) (db : DB)
      (hl : ∃ l ∈ db.loans, l.isbn = isbn ∧ l.friendID = fid ∧ l.returned = 0) :
      Step db (return_book isbn fid db)

/-- States reachable by any sequence of borrow/return operations. -/
def Reachable : DB → DB → Prop := Relation.ReflTransGen Step

lemma no_open_loan_of_inStock {db : DB} {b : Book} (h : stockInv db)
    (hb : b ∈ db.books) (hs : b.isInStock = 1) :
    ¬ ∃ l ∈ db.loans, l.returned = 0 ∧ l.isbn = b.isbn := by
  intro hex
  have h0 := (h b hb).mpr hex
  omega

lemma ledgerInv_create_loan_entry {db : DB} {bd dd : Int} {rr : Option Int}
    {isbn : String} {fid : Int} (h : LedgerInv db)
    (hb : ∃ b ∈ db.books, b.isbn = isbn ∧ b.isInStock = 1) :
    LedgerInv (create_loan_entry bd dd rr isbn fid db) := by
  obtain ⟨b0, hb0, hb0isbn, hb0stock⟩ := hb
  have hno : ¬ ∃ l ∈ db.loans, l.returned = 0 ∧ l.isbn = isbn := by
    intro ⟨l, hl, hop, hli⟩
    exact no_open_loan_of_inStock h.1 hb0 hb0stock ⟨l, hl, hop, by rw [hli, hb0isbn]⟩
  constructor
  · intro b' hb'
    simp only [create_loan_entry, List.mem_map] at hb'
    obtain ⟨b, hbmem, rfl⟩ := hb'
    by_cases hib : b.isbn = isbn
    · simp only [create_loan_entry, hib, if_pos]
      constructor
      · intro _
        refine ⟨_, List.mem_append_right _ (List.mem_singleton.mpr rfl), rfl, ?_⟩
        simp [hib]
      · intro _
        trivial
    · simp only [create_loan_entry, hib, if_neg, not_false_iff]
      rw [h.1 b hbmem]
      constructor
      · intro ⟨l, hl, hop, hli⟩
        exact ⟨l, List.mem_append_left _ hl, hop, hli⟩
      · intro ⟨l, hl, hop, hli⟩
        rcases List.mem_append.mp hl with hl' | hl'
        · exact ⟨l, hl', hop, hli⟩
        · rw [List.mem_singleton.mp hl'] at hli
          simp only at hli
          exact absurd hli.symm hib
  · simp only [create_loan_entry, atMostOneOpen]
    rw [List.pairwise_append]
    refine ⟨h.2, List.pairwise_singleton _ _, ?_⟩
    intro l hl l' hl' hop hop' hisbn
    rw [List.mem_singleton.mp hl'] at hisbn
    simp only at hisbn
    exact hno ⟨l, hl, hop, hisbn⟩

lemma open_symm : Symmetric fun l l' : Loan =>
    l.returned = 0 → l'.returned = 0 → l.isbn ≠ l'.isbn := by
  intro a b hab ha hb
  exact fun h => hab hb ha h.symm

lemma no_open_after_return {db : DB} {isbn : String} {fid : Int}
    (hpw : atMostOneOpen db)
    (hl : ∃ l ∈ db.loans, l.isbn = isbn ∧ l.friendID = fid ∧ l.returned = 0) :
    ∀ l ∈ (return_book isbn fid db).loans, l.returned = 0 → l.isbn ≠ isbn := by
  obtain ⟨l0, hl0, hl0isbn, hl0fid, hl0op⟩ := hl
  intro l hlmem hop hisbn
  simp only [return_book, List.mem_filter, Bool.not_eq_eq_eq_not, Bool.not_true,
    Bool.and_eq_false_imp] at hlmem
  obtain ⟨hlmem, hflt⟩ := hlmem
  have hfid : l.friendID ≠ fid := by
    intro hf
    have := hflt (by simp [hisbn])
    simp [hf] at this
  have hne : l ≠ l0 := by
    intro he
    rw [he] at hfid
    exact hfid hl0fid
  exact hpw.forall open_symm hlmem hl0 hne hop hl0op (by rw [hisbn, hl0isbn])

lemma ledgerInv_return_book {db : DB} {isbn : String} {fid : Int} (h : LedgerInv db)
    (hl : ∃ l ∈ db.loans, l.isbn = isbn ∧ l.friendID = fid ∧ l.returned = 0) :
    LedgerInv (return_book isbn fid db) := by
  have hafter := no_open_after_return h.2 hl
  constructor
  · intro b' hb'
    simp only [return_book, List.mem_map] at hb'
    obtain ⟨b, hbmem, rfl⟩ := hb'
    by_cases hib : b.isbn = isbn
    · simp only [return_book, hib, if_pos]
      constructor
      · intro h10
        exact absurd h10 (by omega)
      · intro ⟨l, hlm, hop, hli⟩
        exact absurd (by simpa [hib] using hli) (hafter l hlm hop)
    · simp only [return_book, hib, if_neg, not_false_iff]
      rw [h.1 b hbmem]
      constructor
      · intro ⟨l, hlm, hop, hli⟩
        refine ⟨l, List.mem_filter.mpr ⟨hlm, ?_⟩, hop, hli⟩
        simp only [Bool.not_eq_eq_eq_not, Bool.not_true, Bool.and_eq_false_imp]
        intro hiseq
        exact absurd (by simpa using hiseq) (by rw [hli]; exact hib)
      · intro ⟨l, hlm, hop, hli⟩
        exact ⟨l, (List.mem_filter.mp hlm).1, hop, hli⟩
  · exact h.2.sublist (List.filter_sublist _)

/-- The ledger invariant is preserved by every single guarded
borrow/return operation. -/
lemma ledgerInv_step {db db' : DB} (h : LedgerInv db) (hs : Step db db') :
    LedgerInv db' := by
  cases hs with
  | borrow bd dd rr isbn fid db hb => exact ledgerInv_create_loan_entry h hb
  | ret isbn fid db hl => exact ledgerInv_return_book h hl

/-- The ledger invariant is preserved along every reachable sequence. -/
lemma ledgerInv_reachable {db db' : DB} (h : LedgerInv db) (hr : Reachable db db') :
    LedgerInv db' := by
  induction hr with
  | refl => exact h
  | tail _ hstep ih => exact ledgerInv_step ih hstep

/-- `countOpenLoans` of the spec: number of `Loans` rows of the friend
with `Returned = 0` (the subquery of `Read.can_borrow_more`). -/
def openLoanCount (friend_id : Int) (db : DB) : Nat :=
  (db.loans.filter fun l => l.friendID == friend_id && l.returned == 0).length

/-- Shorthand for a concrete `Books` row. -/
def mkBook (isbn title : String) (stock : Int) : Book :=
  { isbn := isbn, title := title, author := "A", genre := "G",
    bookCondition := "Good", shelfLocation := "A1", shelfRow := 1, isInStock := stock }

/-- Shorthand for a concrete `Friends` row. -/
def mkFriend (fid : Int) (fn ln : String) (ml : Int) : Friend :=
  { friendID := fid, fname := fn, lname := ln, maxLoans := ml }

/-- Shorthand for a concrete open `Loans` row. -/
def mkLoan (lid bd dd : Int) (rr : Option Int) (isbn : String) (fid : Int) : Loan :=
  { loanID := lid, borrowDate := bd, dueDate := dd, returnReminder := rr,
    isbn := isbn, friendID := fid, returned := 0 }

/-- Concrete database for the C1 counterexample: one available book, two
friends, no loans; the ledger invariant holds. -/
def dbC1 : DB :=
  { books := [mkBook "111" "T" 1],
    friends := [mkFriend 1 "F1" "L1" 2, mkFriend 2 "F2" "L2" 2],
    loans := [], contacts := [], nextLoanID := 1 }

/-- **C1, counterexample.**  Raw `create_loan_entry`/`return_book` calls
check nothing, so starting from an invariant-satisfying state the
sequence borrow(111, friend 1); borrow(111, friend 2); return(111,
friend 1) is a sequence of borrow/return operations after which book 111
has `IsInStock = 1` while friend 2's open loan still references it: the
claimed biconditional fails. -/
theorem c1_counterexample :
    LedgerInv dbC1 ∧
      ¬ stockInv (return_book "111" 1 (create_loan_entry 0 14 none "111" 2
        (create_loan_entry 0 14 none "111" 1 dbC1))) := by
  constructor
  · constructor
    · decide
    · decide
  · decide

/-- **C1** (corrected).  Guarded as the application applies them — the
Home page offers for borrow only books with `IsInStock = 1` and for
return only existing (hence open) loans — borrow/return sequences
preserve the invariant: from any state satisfying `LedgerInv`, every
reachable state again satisfies `IsInStock = 0` iff an open loan
references the book's ISBN. -/
theorem c1_stock_invariant (db db' : DB) (h : LedgerInv db) (hr : Reachable db db') :
    stockInv db' :=
  (ledgerInv_reachable h hr).1

/-- Witness for `c1_stock_invariant`: one guarded borrow step from the
concrete state `dbC1`. -/
theorem c1_witness :
    stockInv (create_loan_entry 0 14 none "111" 1 dbC1) :=
  c1_stock_invariant dbC1 _ ⟨by decide, by decide⟩
    (Relation.ReflTransGen.single (Step.borrow 0 14 none "111" 1 dbC1 (by decide)))

/-- Concrete database for C2: friend 1 with `MaxLoans = 2`, three
available books, no loans (the scenario of spec §8). -/
def dbC2 : DB :=
  { books := [mkBook "111" "T1" 1, mkBook "222" "T2" 1, mkBook "333" "T3" 1],
    friends := [mkFriend 1 "F1" "L1" 2],
    loans := [], contacts := [], nextLoanID := 1 }

/-- `dbC2` after friend 1 borrows books 111 and 222 (both borrows pass
every guard the application applies). -/
def dbC2_two : DB :=
  create_loan_entry 0 14 none "222" 1 (create_loan_entry 0 14 none "111" 1 dbC2)

/-- `dbC2_two` after friend 1 borrows book 333 as well. -/
def dbC2_three : DB := create_loan_entry 0 14 none "333" 1 dbC2_two

/-- **C2, failing input.**  `create_loan_entry` stores *remaining*
capacity in `MaxLoans` (decrementing it) and performs no capacity
check, and nothing in the application calls `can_borrow_more`.  After
friend 1 (capacity 2) has borrowed two books, the open-loan count (2)
already exceeds the stored `MaxLoans` (0); book 333 is still offered as
available, and a third borrow goes through, leaving three open loans
and `MaxLoans = -1` — the claimed invariant and the claimed rejection
both fail. -/
theorem c2_capacity_not_enforced :
    openLoanCount 1 dbC2_two = 2 ∧
    get_friend_max_loans 1 dbC2_two = some 0 ∧
    (dbC2_two.books.filter fun b => b.isbn == "333" && b.isInStock == 1) ≠ [] ∧
    openLoanCount 1 dbC2_three = 3 ∧
    get_friend_max_loans 1 dbC2_three = some (-1) := by
  refine ⟨by decide, by decide, by decide, by decide, by decide⟩

/-- Concrete database for C3: book 111 is on loan to friend 1
(`IsInStock = 0`, one open loan); friend 2 exists with capacity 2. -/
def dbC3 : DB :=
  { books := [mkBook "111" "T" 0],
    friends := [mkFriend 1 "F1" "L1" 2, mkFriend 2 "F2" "L2" 2],
    loans := [mkLoan 1 0 14 none "111" 1], contacts := [], nextLoanID := 2 }

/-- **C3, failing input.**  Book 111 is already on loan, yet
`create_loan_entry` for friend 2 mutates everything anyway: a second
open loan on ISBN 111 is inserted and friend 2's `MaxLoans` drops from
2 to 1 — not the claimed rejection with no mutation. -/
theorem c3_borrow_mutates_when_on_loan :
    ((create_loan_entry 20 34 none "111" 2 dbC3).loans.countP
      fun l => l.isbn == "111" && l.returned == 0) = 2 ∧
    get_friend_max_loans 2 (create_loan_entry 20 34 none "111" 2 dbC3) = some 1 ∧
    (create_loan_entry 20 34 none "111" 2 dbC3).loans ≠ dbC3.loans := by
  refine ⟨by decide, by decide, by decide⟩

/-- Concrete database for C4: book 111 on loan to friend 1; friend 2 has
no loan at all, so the pair (111, friend 2) has nothing to return. -/
def dbC4 : DB :=
  { books := [mkBook "111" "T" 0],
    friends := [mkFriend 1 "F1" "L1" 3, mkFriend 2 "F2" "L2" 2],
    loans := [mkLoan 1 0 14 none "111" 1], contacts := [], nextLoanID := 2 }

/-- **C4, failing input.**  No loan matches (ISBN 111, friend 2), yet
`return_book` still runs both `UPDATE`s: the book is flipped back to
`IsInStock = 1` although friend 1's open loan still references it, and
friend 2's `MaxLoans` grows from 2 to 3.  Far from the claimed no-op,
the call mutates two tables and leaves the database violating the
stock/loan invariant (and the Python function returns `True`). -/
theorem c4_return_not_noop :
    (dbC4.loans.countP fun l => l.isbn == "111" && l.friendID == 2) = 0 ∧
    (return_book "111" 2 dbC4).loans = dbC4.loans ∧
    ((return_book "111" 2 dbC4).books.countP
      fun b => b.isbn == "111" && b.isInStock == 1) = 1 ∧
    get_friend_max_loans 2 (return_book "111" 2 dbC4) = some 3 ∧
    get_friend_max_loans 2 dbC4 = some 2 ∧
    ¬ stockInv (return_book "111" 2 dbC4) := by
  refine ⟨by decide, by decide, by decide, by decide, by decide, by decide⟩

/-- **C5** (confirmed).  Under the borrow preconditions — every `Books`
row with the requested ISBN is in stock (there is one), the friend
exists and `can_borrow_more` allows the loan — `create_loan_entry`
followed by `return_book` for the same (ISBN, FriendID) pair restores
the `Books` table and the `Friends` table (hence the friend's stored
remaining capacity) exactly, so the available-books query is unchanged
and lists the book again. -/
theorem c5_roundtrip (db : DB) (bd dd : Int) (rr : Option Int) (isbn : String) (fid : Int)
    (hstock : ∀ b ∈ db.books, b.isbn = isbn → b.isInStock = 1)
    (hex : ∃ b ∈ db.books, b.isbn = isbn)
    (hfr : ∃ f ∈ db.friends, f.friendID = fid)
    (hcap : can_borrow_more fid db = true) :
    (return_book isbn fid (create_loan_entry bd dd rr isbn fid db)).books = db.books ∧
    (return_book isbn fid (create_loan_entry bd dd rr isbn fid db)).friends = db.friends ∧
    get_books (return_book isbn fid (create_loan_entry bd dd rr isbn fid db)) =
      get_books db ∧
    ((get_books (return_book isbn fid (create_loan_entry bd dd rr isbn fid db))).filter
      fun r => r.isbn == isbn) ≠ [] := by
  have hbooks : (return_book isbn fid (create_loan_entry bd dd rr isbn fid db)).books
      = db.books := by
    simp only [return_book, create_loan_entry, List.map_map]
    conv_rhs => rw [← List.map_id db.books]
    refine List.map_congr_left ?_
    intro b hb
    by_cases hib : b.isbn = isbn
    · have h1 := hstock b hb hib
      cases b
      simp_all
    · simp [Function.comp, hib]
  have hfriends : (return_book isbn fid (create_loan_entry bd dd rr isbn fid db)).friends
      = db.friends := by
    simp only [return_book, create_loan_entry, List.map_map]
    conv_rhs => rw [← List.map_id db.friends]
    refine List.map_congr_left ?_
    intro f hf
    by_cases hif : f.friendID = fid
    · cases f
      simp_all
    · simp [Function.comp, hif]
  have hget : get_books (return_book isbn fid (create_loan_entry bd dd rr isbn fid db))
      = get_books db := by
    unfold get_books
    rw [hbooks]
  refine ⟨hbooks, hfriends, hget, ?_⟩
  rw [hget]
  obtain ⟨b, hb, hbisbn⟩ := hex
  have hs := hstock b hb hbisbn
  have hrow : (⟨b.isbn, b.title⟩ : BookRow) ∈ get_books db := by
    unfold get_books
    refine List.mem_map.mpr ⟨b, ?_, rfl⟩
    rw [List.mem_mergeSort]
    exact List.mem_filter.mpr ⟨hb, by simp [hs]⟩
  intro hnil
  have := List.filter_eq_nil_iff.mp hnil _ hrow
  simp [hbisbn] at this

/-- Concrete database for the C5 witness. -/
def dbC5 : DB :=
  { books := [mkBook "111" "T1" 1],
    friends := [mkFriend 1 "F1" "L1" 2],
    loans := [], contacts := [], nextLoanID := 1 }

/-- Witness for `c5_roundtrip` at the concrete state `dbC5`. -/
theorem c5_witness :
    (return_book "111" 1 (create_loan_entry 0 14 none "111" 1 dbC5)).books = dbC5.books ∧
    (return_book "111" 1 (create_loan_entry 0 14 none "111" 1 dbC5)).friends =
      dbC5.friends ∧
    get_books (return_book "111" 1 (create_loan_entry 0 14 none "111" 1 dbC5)) =
      get_books dbC5 ∧
    ((get_books (return_book "111" 1 (create_loan_entry 0 14 none "111" 1 dbC5))).filter
      fun r => r.isbn == "111") ≠ [] :=
  c5_roundtrip dbC5 0 14 none "111" 1 (by decide) (by decide) (by decide) (by decide)

/-- Concrete database for the C6 counterexample: friend 1 holds two
overdue open loans; in `Loans` table order the due dates are [20, 10]. -/
def dbC6 : DB :=
  { books := [mkBook "111" "T1" 0, mkBook "222" "T2" 0],
    friends := [mkFriend 1 "F1" "L1" 2],
    loans := [mkLoan 1 0 20 none "111" 1, mkLoan 2 0 10 none "222" 1],
    contacts := [], nextLoanID := 3 }

/-- **C6, counterexample.**  `get_loan_overdues` has no `ORDER BY`: the
result comes back in `Loans` table order, here due dates [20, 10] at
current date 30, which is not ascending. -/
theorem c6_counterexample :
    (get_loan_overdues 30 dbC6).map OverdueRow.dueDate = [20, 10] ∧
    ¬ (get_loan_overdues 30 dbC6).Pairwise
        (fun r r' : OverdueRow => r.dueDate ≤ r'.dueDate) := by
  constructor
  · decide
  · decide

/-- **C6** (corrected).  The rows of `get_loan_overdues` are exactly the
open loans (`Returned = 0`) with `DueDate` strictly before the current
date, inner-joined with the book's title and the friend's name — but in
`Loans` table order, not ordered by `DueDate`. -/
theorem c6_overdue_rows (today : Int) (db : DB) (r : OverdueRow) :
    r ∈ get_loan_overdues today db ↔
      ∃ l ∈ db.loans, ∃ b ∈ db.books, ∃ f ∈ db.friends,
        l.isbn = b.isbn ∧ l.friendID = f.friendID ∧
        l.dueDate < today ∧ l.returned = 0 ∧
        r = { loanID := l.loanID, dueDate := l.dueDate, friendID := f.friendID,
              fname := f.fname, lname := f.lname, title := b.title, isbn := l.isbn } := by
  simp only [get_loan_overdues, List.mem_flatMap, List.mem_filter, List.mem_map,
    Bool.and_eq_true, decide_eq_true_eq, beq_iff_eq]
  constructor
  · rintro ⟨l, ⟨hl, hdue, hret⟩, b, ⟨hb, hisbn⟩, f, ⟨hf, hfid⟩, rfl⟩
    exact ⟨l, hl, b, hb, f, hf, hisbn, hfid, hdue, hret, rfl⟩
  · rintro ⟨l, hl, b, hb, f, hf, hisbn, hfid, hdue, hret, rfl⟩
    exact ⟨l, ⟨hl, hdue, hret⟩, b, ⟨hb, hisbn⟩, f, ⟨hf, hfid⟩, rfl⟩

/-- Every result row produced for a loan carries that loan's `LoanID`. -/
lemma reminder_rows_loanID (db : DB) (l : Loan) :
    ∀ r ∈ reminder_rows db l, r.loanID = l.loanID := by
  intro r hr
  simp only [reminder_rows, List.mem_flatMap, List.mem_map] at hr
  obtain ⟨f, _, b, _, c, _, rfl⟩ := hr
  rfl

/-- **C7** (confirmed).  `clear_reminder` is idempotent, afterwards the
loan's `ReturnReminder` is `NULL`, and the loan yields no row in any
future `get_daily_reminders` scan. -/
theorem c7_clear_reminder_idempotent (loan_id today : Int) (db : DB) :
    clear_reminder loan_id (clear_reminder loan_id db) = clear_reminder loan_id db ∧
    ((clear_reminder loan_id db).loans.filter fun l => l.loanID == loan_id).all
      (fun l => l.returnReminder == none) = true ∧
    (get_daily_reminders today (clear_reminder loan_id db)).countP
      (fun r => r.loanID == loan_id) = 0 := by
  refine ⟨?_, ?_, ?_⟩
  · have h : ∀ l ∈ db.loans,
        ((fun l : Loan => if l.loanID = loan_id then { l with returnReminder := none } else l) ∘
          fun l : Loan => if l.loanID = loan_id then { l with returnReminder := none } else l) l =
        (fun l : Loan => if l.loanID = loan_id then { l with returnReminder := none } else l) l := by
      intro l _
      by_cases h0 : l.loanID = loan_id
      · simp [Function.comp, h0]
      · simp [Function.comp, h0]
    simp only [clear_reminder, List.map_map, List.map_congr_left h]
  · rw [List.all_eq_true]
    intro l hl
    obtain ⟨hmem, hid⟩ := List.mem_filter.mp hl
    simp only [clear_reminder, List.mem_map] at hmem
    obtain ⟨l0, hl0, rfl⟩ := hmem
    by_cases h0 : l0.loanID = loan_id
    · simp [h0]
    · exfalso
      revert hid
      simp [h0]
  · rw [List.countP_eq_zero]
    intro r hr
    simp only [get_daily_reminders, List.mem_flatMap, List.mem_filter, beq_iff_eq] at hr
    obtain ⟨l, ⟨hlmem, hlrr⟩, hrow⟩ := hr
    have hid := reminder_rows_loanID _ _ r hrow
    simp only [clear_reminder, List.mem_map] at hlmem
    obtain ⟨l0, hl0, rfl⟩ := hlmem
    by_cases h0 : l0.loanID = loan_id
    · simp [h0] at hlrr
    · simp only [h0, if_neg, not_false_iff] at hid
      simp [hid, h0]

/-- **C8** (confirmed).  `delete_friend` leaves the `Books` table
untouched; a book on open loan to the deleted friend keeps
`IsInStock = 0`, stays out of the available-books result, and (by
uniqueness of the open loan per ISBN) no open loan references it any
longer. -/
theorem c8_delete_friend_frame (db : DB) (fid : Int) (b : Book) (l : Loan)
    (hinv : LedgerInv db) (hb : b ∈ db.books) (hl : l ∈ db.loans)
    (hlf : l.friendID = fid) (hlo : l.returned = 0) (hli : l.isbn = b.isbn) :
    (delete_friend fid db).books = db.books ∧
    b.isInStock = 0 ∧
    ((get_books (delete_friend fid db)).filter fun r => r.isbn == b.isbn) = [] ∧
    ((delete_friend fid db).loans.filter
      fun l' => l'.returned == 0 && l'.isbn == b.isbn) = [] := by
  have hbooks : (delete_friend fid db).books = db.books := rfl
  have hstock0 : b.isInStock = 0 := (hinv.1 b hb).mpr ⟨l, hl, hlo, hli⟩
  refine ⟨hbooks, hstock0, ?_, ?_⟩
  · rw [List.filter_eq_nil_iff]
    intro r hr
    simp only [get_books, hbooks, List.mem_map] at hr
    obtain ⟨b', hb', rfl⟩ := hr
    rw [List.mem_mergeSort] at hb'
    obtain ⟨hb'mem, hb'stock⟩ := List.mem_filter.mp hb'
    simp only [beq_iff_eq]
    intro hbisbn
    have h0 : b'.isInStock = 0 :=
      (hinv.1 b' hb'mem).mpr ⟨l, hl, hlo, by rw [hli, ← hbisbn]⟩
    simp [h0] at hb'stock
  · rw [List.filter_eq_nil_iff]
    intro l' hl'
    simp only [delete_friend, List.mem_filter, Bool.not_eq_eq_eq_not, Bool.not_true,
      beq_eq_false_iff_ne, ne_eq] at hl'
    obtain ⟨hl'mem, hl'fid⟩ := hl'
    simp only [Bool.and_eq_true, beq_iff_eq, not_and]
    intro hl'ret hl'isbn
    have hne : l' ≠ l := fun he => hl'fid (he ▸ hlf)
    exact hinv.2.forall open_symm hl'mem hl hne hl'ret hlo (by rw [hl'isbn, hli])

/-- Concrete database for the C8 witness: friend 1 holds the open loan
on book 111 and has one contact row. -/
def dbC8 : DB :=
  { books := [mkBook "111" "T" 0],
    friends := [mkFriend 1 "F1" "L1" 2],
    loans := [mkLoan 1 0 14 none "111" 1],
    contacts := [{ contactID := 1, friendID := 1, ctype := "email", contact := "x" }],
    nextLoanID := 2 }

/-- Witness for `c8_delete_friend_frame` at the concrete state `dbC8`. -/
theorem c8_witness :
    (delete_friend 1 dbC8).books = dbC8.books ∧
    (mkBook "111" "T" 0).isInStock = 0 ∧
    ((get_books (delete_friend 1 dbC8)).filter
      fun r => r.isbn == (mkBook "111" "T" 0).isbn) = [] ∧
    ((delete_friend 1 dbC8).loans.filter
      fun l' => l'.returned == 0 && l'.isbn == (mkBook "111" "T" 0).isbn) = [] :=
  c8_delete_friend_frame dbC8 1 (mkBook "111" "T" 0) (mkLoan 1 0 14 none "111" 1)
    ⟨by decide, by decide⟩ (by decide) (by decide) (by decide) (by decide) (by decide)

/-- **C10** (confirmed).  For a friend id with no `Friends` row — id `0`
included, which Python treats as falsy — `get_friend_max_loans` returns
`None` and `can_borrow_more` returns `False` instead of raising. -/
theorem c10_missing_friend (db : DB) (fid : Int)
    (h : fid = 0 ∨ ∀ f ∈ db.friends, f.friendID ≠ fid) :
    get_friend_max_loans fid db = none ∧ can_borrow_more fid db = false := by
  have hnone : get_friend_max_loans fid db = none := by
    by_cases h0 : fid = 0
    · simp [get_friend_max_loans, h0]
    · rcases h with rfl | hmiss
      · exact absurd rfl h0
      · simp only [get_friend_max_loans, h0, if_neg, not_false_iff]
        rw [List.find?_eq_none.mpr fun f hf => by simpa using hmiss f hf]
        rfl
  exact ⟨hnone, by simp only [can_borrow_more, hnone]⟩

/-- Concrete database for the C10 witness: only friend 1 exists. -/
def dbC10 : DB :=
  { books := [], friends := [mkFriend 1 "F1" "L1" 2], loans := [], contacts := [],
    nextLoanID := 1 }

/-- Witness for `c10_missing_friend` at the concrete id 5 (no row). -/
theorem c10_witness :
    get_friend_max_loans 5 dbC10 = none ∧ can_borrow_more 5 dbC10 = false :=
  c10_missing_friend dbC10 5 (Or.inr (by decide))

lemma countP_flatMap_list {α β : Type} (f : α → List β) (p : β → Bool) (L : List α) :
    ((L.flatMap f).countP p) = (L.map fun a => (f a).countP p).sum := by
  induction L with
  | nil => rfl
  | cons x xs ih =>
      simp only [List.flatMap_cons, List.countP_append, List.map_cons, List.sum_cons, ih]

lemma two_le_countP {α : Type} {p : α → Bool} {L : List α} {a b : α}
    (ha : a ∈ L) (hb : b ∈ L) (hne : a ≠ b) (hpa : p a = true) (hpb : p b = true) :
    2 ≤ L.countP p := by
  induction L with
  | nil => cases ha
  | cons x xs ih =>
      rw [List.countP_cons]
      rcases List.mem_cons.mp ha with rfl | ha'
      · rcases List.mem_cons.mp hb with rfl | hb'
        · exact absurd rfl hne
        · have h1 : 0 < xs.countP p := List.countP_pos_iff.mpr ⟨b, hb', hpb⟩
          rw [if_pos hpa]; omega
      · rcases List.mem_cons.mp hb with rfl | hb'
        · have h1 : 0 < xs.countP p := List.countP_pos_iff.mpr ⟨a, ha', hpa⟩
          rw [if_pos hpb]; omega
        · have h2 := ih ha' hb'
          omega

lemma sum_map_eq_of_countP_one {α : Type} {q : α → Bool} {g : α → Nat} {M : List α}
    {n : ℕ} (hcount : M.countP q = 1)
    (hzero : ∀ a ∈ M, q a = false → g a = 0)
    (hval : ∀ a ∈ M, q a = true → g a = n) :
    (M.map g).sum = n := by
  induction M with
  | nil => simp at hcount
  | cons x xs ih =>
      rw [List.countP_cons] at hcount
      by_cases hqx : q x = true
      · rw [if_pos hqx] at hcount
        have hxs : xs.countP q = 0 := by omega
        have hall : ∀ y ∈ xs.map g, y = 0 := by
          intro y hy
          obtain ⟨a, ha, rfl⟩ := List.mem_map.mp hy
          exact hzero a (List.mem_cons_of_mem _ ha)
            (by simpa using List.countP_eq_zero.mp hxs a ha)
        simp [List.map_cons, List.sum_cons, hval x (List.mem_cons_self x xs) hqx,
          List.sum_eq_zero hall]
      · have hgx : g x = 0 :=
          hzero x (List.mem_cons_self x xs) (by simpa using hqx)
        rw [if_neg hqx] at hcount
        simp only [List.map_cons, List.sum_cons, hgx, Nat.zero_add]
        exact ih (by omega) (fun a ha => hzero a (List.mem_cons_of_mem _ ha))
          (fun a ha => hval a (List.mem_cons_of_mem _ ha))

/-- When the loan's friend and book each match exactly one table row,
the reminder join yields one row per matching contact. -/
lemma reminder_rows_length (db : DB) (l : Loan)
    (hf : (db.friends.filter fun f => l.friendID == f.friendID).length = 1)
    (hb : (db.books.filter fun b => l.isbn == b.isbn).length = 1) :
    (reminder_rows db l).length =
      (db.contacts.filter fun c => l.friendID == c.friendID).length := by
  obtain ⟨f0, hf0⟩ := List.length_eq_one.mp hf
  obtain ⟨b0, hb0⟩ := List.length_eq_one.mp hb
  simp [reminder_rows, hf0, hb0]

/-- **C9** (confirmed).  `get_daily_reminders` inner-joins `Contacts` on
the loan's `FriendID`: a loan whose reminder is due today contributes
exactly as many result rows as its friend has `Contacts` rows — in
particular none at all when the friend has no contact (the reminder is
silently dropped), and N rows for N contacts. -/
theorem c9_reminder_rows_per_contact (today : Int) (db : DB) (l : Loan)
    (hl : l ∈ db.loans) (hrr : l.returnReminder = some today)
    (huloan : (db.loans.countP fun l' => l'.loanID == l.loanID) = 1)
    (hufriend : (db.friends.filter fun f => l.friendID == f.friendID).length = 1)
    (hubook : (db.books.filter fun b => l.isbn == b.isbn).length = 1) :
    ((get_daily_reminders today db).countP fun r => r.loanID == l.loanID) =
      (db.contacts.filter fun c => l.friendID == c.friendID).length := by
  rw [get_daily_reminders, countP_flatMap_list]
  have hlM : l ∈ db.loans.filter fun l' => l'.returnReminder == some today :=
    List.mem_filter.mpr ⟨hl, by simp [hrr]⟩
  have hMsub : (db.loans.filter fun l' => l'.returnReminder == some today).Sublist
      db.loans := List.filter_sublist _
  have hcountM : ((db.loans.filter fun l' => l'.returnReminder == some today).countP
      fun l' => l'.loanID == l.loanID) = 1 := by
    have hle := hMsub.countP_le fun l' => l'.loanID == l.loanID
    have hge : 0 < (db.loans.filter fun l' => l'.returnReminder == some today).countP
        fun l' => l'.loanID == l.loanID :=
      List.countP_pos_iff.mpr ⟨l, hlM, by simp⟩
    omega
  refine sum_map_eq_of_countP_one hcountM ?_ ?_
  · intro a haM hq
    rw [List.countP_eq_zero]
    intro r hr
    have hid := reminder_rows_loanID db a r hr
    simp only [hid]
    simp only [beq_eq_false_iff_ne, ne_eq] at hq
    simpa using hq
  · intro a haM hq
    have haL : a ∈ db.loans := (List.mem_filter.mp haM).1
    have haeq : a = l := by
      by_contra hne
      have h2 := two_le_countP (p := fun l' => l'.loanID == l.loanID)
        haL hl hne hq (by simp)
      omega
    subst haeq
    rw [List.countP_eq_length.mpr fun r hr => by
        simp [reminder_rows_loanID db a r hr]]
    exact reminder_rows_length db a hufriend hubook

/-- Concrete database for the C9 witness: loan 1's reminder falls on
day 11 and friend 1 has two contact rows. -/
def dbC9 : DB :=
  { books := [mkBook "111" "T" 0],
    friends := [mkFriend 1 "F1" "L1" 2],
    loans := [mkLoan 1 0 14 (some 11) "111" 1],
    contacts := [{ contactID := 1, friendID := 1, ctype := "email", contact := "x" },
                 { contactID := 2, friendID := 1, ctype := "phone", contact := "y" }],
    nextLoanID := 2 }

/-- Witness for `c9_reminder_rows_per_contact` at the concrete state
`dbC9` (two contacts, hence two reminder rows). -/
theorem c9_witness :
    ((get_daily_reminders 11 dbC9).countP
      fun r => r.loanID == (mkLoan 1 0 14 (some 11) "111" 1).loanID) =
      (dbC9.contacts.filter
        fun c => (mkLoan 1 0 14 (some 11) "111" 1).friendID == c.friendID).length :=
  c9_reminder_rows_per_contact 11 dbC9 (mkLoan 1 0 14 (some 11) "111" 1)
    (by decide) (by decide) (by decide) (by decide) (by decide)

